import Mathlib

/-!
# Verification of the negotiation-agent template

A shallow embedding of `code.py` (buyer agent `YourBuyerAgent`, mock seller
`MockSellerAgent` and the orchestrator `run_negotiation_test`), together with
proofs about the buyer policy and the negotiation loop.

Embedding conventions:
* Python `int` is Lean `Int`.
* A Python expression `int(x * c)` where `c` is a decimal literal `k/10^n` is
  embedded as exact rational arithmetic truncated toward zero:
  `(x * k).tdiv (10^n)` (`Int.tdiv` truncates toward zero, as Python `int()`
  does).  Likewise `int((a + b) / 2)` becomes `(a + b).tdiv 2`, and a float
  comparison `a >= b * 1.1` becomes `a * 10 ≥ b * 11`.
* Python strings are Lean `String`; `s.strip().lower()` is `s.trim.toLower`,
  and the substring test `pat in s` is `pat.data.isInfixOf s.data`.
* The mutable `NegotiationContext` is threaded explicitly through a
  fuel-indexed recursion replacing the `for round_num in range(10)` loop.
-/

/-- Does `pat` occur as a contiguous sublist of `s`?  (Python's substring
test `pat in s`.) -/
def hasSub : List Char → List Char → Bool
  | pat, [] => pat.isEmpty
  | pat, c :: rest => List.isPrefixOf pat (c :: rest) || hasSub pat rest

/-- Python's `s.strip().lower()`, as a character list.  (Implemented over
`List Char` so that it reduces inside the kernel; `String.trim`/`toLower`
are position-indexed and do not.) -/
def pyStripLower (s : String) : List Char :=
  (((s.data.dropWhile Char.isWhitespace).reverse.dropWhile
      Char.isWhitespace).reverse).map Char.toLower

/-!
### IEEE-754 arithmetic for the non-float-exact multipliers

The multipliers 0.58, 1.15 and 1.1 are not exactly representable as
binary64 doubles, and the difference is observable at the program's own
inputs (e.g. CPython evaluates `int(194400 * 0.58)` to 112751, not
112752).  For those three operations the embedding computes the genuine
IEEE double product.  The doubles are
`0.58 = 5224175567749775 / 2^53`, `1.15 = 2589569785738035 / 2^51` and
`1.1 = 2476979795053773 / 2^51`, so every product `x * c` is a dyadic
rational `(|x| · C) / 2^t`, which `roundPow2` rounds to 53 significant
bits (round to nearest, ties to even) using integer arithmetic only, so
that the kernel can evaluate it.  Conversion of `x` to a double is exact
for `|x| < 2^53`, which covers the program's whole realistic price range;
overflow and subnormals are far outside it and are not modelled.
-/

/-- Fuel-based binary logarithm (kernel-reducible, unlike `Nat.log2`). -/
def log2Fuel : Nat → Nat → Nat
  | 0, _ => 0
  | fuel+1, n => if 2 ≤ n then log2Fuel fuel (n / 2) + 1 else 0

theorem log2Fuel_eq (fuel : Nat) : ∀ n : Nat, n ≤ fuel → log2Fuel fuel n = Nat.log2 n := by
  induction fuel with
  | zero =>
    intro n h
    have hn : n = 0 := by omega
    subst hn
    rw [Nat.log2]
    simp [log2Fuel]
  | succ fuel ih =>
    intro n h
    rw [Nat.log2]
    simp only [log2Fuel]
    split
    · rw [ih (n / 2) (by omega)]
    · rfl

def natLog2 (n : Nat) : Nat := log2Fuel n n

theorem natLog2_eq (n : Nat) : natLog2 n = Nat.log2 n := log2Fuel_eq n n le_rfl

/-- Round `a / 2^s` to the nearest integer, ties to even. -/
def roundHalfEven (a s : Nat) : Nat :=
  let fl := a / 2 ^ s
  let r := a % 2 ^ s
  if 2 * r < 2 ^ s then fl
  else if 2 ^ s < 2 * r then fl + 1
  else if fl % 2 = 0 then fl else fl + 1

/-- Round `a / 2^t` to 53 significant bits (IEEE round to nearest, ties
to even), returning `(M, T)` with value `M / 2^T`.  A numerator below
`2^52` is already exactly representable. -/
def roundPow2 (a t : Nat) : Nat × Nat :=
  if a = 0 then (0, 0)
  else
    let La := natLog2 a
    if 52 ≤ La then
      let s := La - 52
      let m := roundHalfEven a s
      if t ≤ s then (m * 2 ^ (s - t), 0) else (m, t - s)
    else (a, t)

/-- Python `int(x * c)` where `c` is the positive double `C / 2^t`: the
IEEE product followed by truncation toward zero. -/
def pyIntMulPow (x : Int) (C t : Nat) : Int :=
  let mt := roundPow2 (x.natAbs * C) t
  let v : Nat := mt.1 / 2 ^ mt.2
  if x < 0 then -(v : Int) else (v : Int)

/-- Python `int(x * 0.58)`. -/
def pyInt058 (x : Int) : Int := pyIntMulPow x 5224175567749775 53

/-- Python `int(x * 1.15)`. -/
def pyInt115 (x : Int) : Int := pyIntMulPow x 2589569785738035 51

/-- Python's (exact) comparison `x >= m * 1.1`, the right side being the
IEEE double product `m * 1.1`. -/
def pyGe110 (x m : Int) : Prop :=
  let mt := roundPow2 (m.natAbs * 2476979795053773) 51
  (if m < 0 then -(mt.1 : Int) else (mt.1 : Int)) ≤ x * 2 ^ mt.2

instance (x m : Int) : Decidable (pyGe110 x m) := Int.decLe _ _

/-- Product being negotiated (the `attributes` dict is irrelevant to every
computation and is modelled as an association list of strings). -/
structure Product where
  name : String
  category : String
  quantity : Int
  quality_grade : String
  origin : String
  base_market_price : Int
  attributes : List (String × String)
deriving Repr, DecidableEq

/-- Current negotiation state. -/
structure NegotiationContext where
  product : Product
  your_budget : Int
  current_round : Int
  seller_offers : List Int
  your_offers : List Int
  messages : List (String × String)
deriving Repr

inductive DealStatus where
  | ongoing
  | accepted
  | rejected
  | timeout
deriving Repr, DecidableEq

namespace YourBuyerAgent

/-- The catchphrases from `define_personality`. -/
def catchphrases : List String :=
  ["That’s far above market.",
   "I can’t justify that price.",
   "We need a deal that makes sense."]

/-- `YourBuyerAgent.calculate_fair_price`: grade adjustment (contains
"export" → ×1.10, exactly "b" → ×0.90) then origin premium (Ratnagiri
Alphonso → ×1.08), each truncated. -/
def calculate_fair_price (product : Product) : Int :=
  let fair := product.base_market_price
  let grade := pyStripLower product.quality_grade
  let fair :=
    if hasSub "export".data grade then (fair * 110).tdiv 100
    else if grade = "b".data then (fair * 90).tdiv 100
    else fair
  let origin := pyStripLower product.origin
  let name_lower := pyStripLower product.name
  if hasSub "ratnagiri".data origin ∧ hasSub "alphonso".data name_lower then
    (fair * 108).tdiv 100
  else fair

/-- `YourBuyerAgent.generate_opening_offer`. -/
def generate_opening_offer (context : NegotiationContext) : Int × String :=
  let product := context.product
  let fair := calculate_fair_price product
  let opening_price := pyInt058 fair
  let opening_price := min opening_price context.your_budget
  let floor := (product.base_market_price * 40).tdiv 100
  let opening_price := max opening_price floor
  (opening_price,
   "₹" ++ toString opening_price ++
     " is a realistic starting point given market reality. Anything higher won’t make sense for me. " ++
     catchphrases.getD 0 "")

/-- `YourBuyerAgent.respond_to_seller_offer`.  The source's two ONGOING
returns differ only in the message, so they are merged here with the
message selected by the same condition. -/
def respond_to_seller_offer (context : NegotiationContext)
    (seller_price : Int) (_seller_message : String) : DealStatus × Int × String :=
  let product := context.product
  let fair := calculate_fair_price product
  let max_willing := min context.your_budget ((fair * 88).tdiv 100)
  if seller_price ≤ max_willing then
    (DealStatus.accepted, seller_price,
     "Alright. ₹" ++ toString seller_price ++ " works. " ++ catchphrases.getD 2 "")
  else
    let last_offer := context.your_offers.getLast?.getD (pyInt058 fair)
    let round_num := context.current_round
    let counter :=
      if round_num ≤ 3 then
        max ((last_offer * 105).tdiv 100) ((seller_price * 80).tdiv 100)
      else if round_num ≤ 7 then
        max ((last_offer * 107).tdiv 100) ((seller_price * 85).tdiv 100)
      else
        (last_offer + seller_price).tdiv 2
    let counter := min counter max_willing
    let counter := max counter (last_offer + max 1 ((fair * 2).tdiv 1000))
    let counter :=
      if (product.base_market_price * 15).tdiv 10 ≤ seller_price ∧ round_num ≤ 2 then
        min counter ((fair * 70).tdiv 100)
      else counter
    let message :=
      if max_willing ≤ counter ∧ max_willing < seller_price then
        "That’s above what I can justify. ₹" ++ toString counter ++
          " is my ceiling given the market. " ++ catchphrases.getD 1 ""
      else
        "Too high. I can do ₹" ++ toString counter ++ ". " ++ catchphrases.getD 2 ""
    (DealStatus.ongoing, counter, message)

end YourBuyerAgent

namespace MockSellerAgent

/-- `MockSellerAgent.get_opening_price`: 150% of market price. -/
def get_opening_price (product : Product) : Int × String :=
  let price := (product.base_market_price * 15).tdiv 10
  (price,
   "These are premium " ++ product.quality_grade ++ " grade " ++ product.name ++
     ". I'm asking ₹" ++ toString price ++ ".")

/-- `MockSellerAgent.respond_to_buyer` (the `min_price` field is passed
explicitly).  Returns (price, message, accepted). -/
def respond_to_buyer (min_price buyer_offer : Int) (round_num : Int) :
    Int × String × Bool :=
  if pyGe110 buyer_offer min_price then
    (buyer_offer, "You have a deal at ₹" ++ toString buyer_offer ++ "!", true)
  else if round_num ≥ 8 then
    let counter := max min_price ((buyer_offer * 105).tdiv 100)
    (counter, "Final offer: ₹" ++ toString counter ++ ". Take it or leave it.", false)
  else
    let counter := max min_price (pyInt115 buyer_offer)
    (counter, "I can come down to ₹" ++ toString counter ++ ".", false)

end MockSellerAgent

/-- Result record of `run_negotiation_test` (the Python result dict; the
percentage fields use Python's true division, modelled in `Rat`). -/
structure NegotiationResult where
  deal_made : Bool
  final_price : Option Int
  rounds : Int
  savings : Int
  savings_pct : Rat
  below_market_pct : Rat
  conversation : List (String × String)
deriving Repr

/-- The `for round_num in range(10)` loop of `run_negotiation_test`,
specialised to `YourBuyerAgent`: `fuel` counts the remaining iterations and
`round_num` is the Python loop index.  Returns `(deal_made, final_price,
context)`. -/
def negotiationLoop (seller_min : Int) :
    Nat → Nat → NegotiationContext → Int → String →
      Bool × Option Int × NegotiationContext
  | 0, _, context, _, _ => (false, none, context)
  | fuel + 1, round_num, context, seller_price, seller_msg =>
    let context := { context with current_round := (round_num : Int) + 1 }
    let step :=
      if round_num == 0 then
        let om := YourBuyerAgent.generate_opening_offer context
        (DealStatus.ongoing, om.1, om.2)
      else
        YourBuyerAgent.respond_to_seller_offer context seller_price seller_msg
    let buyer_offer := step.2.1
    let context :=
      { context with
          your_offers := context.your_offers ++ [buyer_offer]
          messages := context.messages ++ [("buyer", step.2.2)] }
    match step.1 with
    | DealStatus.accepted => (true, some seller_price, context)
    | _ =>
      let sres := MockSellerAgent.respond_to_buyer seller_min buyer_offer (round_num : Int)
      if sres.2.2 then
        (true, some buyer_offer,
         { context with messages := context.messages ++ [("seller", sres.2.1)] })
      else
        let context :=
          { context with
              seller_offers := context.seller_offers ++ [sres.1]
              messages := context.messages ++ [("seller", sres.2.1)] }
        negotiationLoop seller_min fuel (round_num + 1) context sres.1 sres.2.1

/-- The context built by `run_negotiation_test` before its loop: fresh
state with the seller's opening offer already recorded. -/
def initContext (product : Product) (buyer_budget : Int) : NegotiationContext :=
  { product := product
    your_budget := buyer_budget
    current_round := 0
    seller_offers := [(MockSellerAgent.get_opening_price product).1]
    your_offers := []
    messages := [("seller", (MockSellerAgent.get_opening_price product).2)] }

/-- `run_negotiation_test`, with `YourBuyerAgent` as the buyer agent. -/
def run_negotiation_test (product : Product) (buyer_budget seller_min : Int) :
    NegotiationResult :=
  let opening := MockSellerAgent.get_opening_price product
  let res := negotiationLoop seller_min 10 0 (initContext product buyer_budget)
      opening.1 opening.2
  let deal_made := res.1
  let final_price := res.2.1
  let finalCtx := res.2.2
  { deal_made := deal_made
    final_price := final_price
    rounds := finalCtx.current_round
    savings := if deal_made then buyer_budget - final_price.getD 0 else 0
    savings_pct :=
      if deal_made then
        ((buyer_budget - final_price.getD 0 : Int) : Rat) / (buyer_budget : Rat) * 100
      else 0
    below_market_pct :=
      if deal_made then
        ((product.base_market_price - final_price.getD 0 : Int) : Rat) /
          (product.base_market_price : Rat) * 100
      else 0
    conversation := finalCtx.messages }

/-- The final `current_round` after running the loop grows by at most the
fuel. -/
theorem loop_rounds (smin : Int) :
    ∀ (fuel r : Nat) (ctx : NegotiationContext) (sp : Int) (sm : String),
      ctx.current_round ≤ (r : Int) →
      (negotiationLoop smin fuel r ctx sp sm).2.2.current_round ≤ (r : Int) + fuel := by
  intro fuel
  induction fuel with
  | zero =>
    intro r ctx sp sm h
    simpa [negotiationLoop] using h
  | succ fuel ih =>
    intro r ctx sp sm h
    simp only [negotiationLoop]
    split
    · dsimp only; push_cast; omega
    · split <;> split
      all_goals first
        | (dsimp only; push_cast; omega)
        | (refine le_trans (ih (r+1) _ _ _ (by dsimp only; push_cast; omega))
            (by push_cast; omega))

/-- The loop either reports a deal with a price, or no deal and no price. -/
theorem loop_shape (smin : Int) :
    ∀ (fuel r : Nat) (ctx : NegotiationContext) (sp : Int) (sm : String),
      ((negotiationLoop smin fuel r ctx sp sm).1 = true ∧
        ∃ fp, (negotiationLoop smin fuel r ctx sp sm).2.1 = some fp) ∨
      ((negotiationLoop smin fuel r ctx sp sm).1 = false ∧
        (negotiationLoop smin fuel r ctx sp sm).2.1 = none) := by
  intro fuel
  induction fuel with
  | zero => intro r ctx sp sm; right; exact ⟨rfl, rfl⟩
  | succ fuel ih =>
    intro r ctx sp sm
    simp only [negotiationLoop]
    split
    · left; exact ⟨rfl, _, rfl⟩
    · split <;> split
      all_goals first
        | (left; exact ⟨rfl, _, rfl⟩)
        | (exact ih (r+1) _ _ _)

/-! ### Concrete inputs used in counterexamples and witnesses -/

/-- The first test product from `test_your_agent`. -/
def alphonsoProduct : Product :=
  { name := "Alphonso Mangoes", category := "Mangoes", quantity := 100,
    quality_grade := "A", origin := "Ratnagiri", base_market_price := 180000,
    attributes := [] }

/-- The second test product from `test_your_agent`. -/
def kesarProduct : Product :=
  { name := "Kesar Mangoes", category := "Mangoes", quantity := 150,
    quality_grade := "B", origin := "Gujarat", base_market_price := 150000,
    attributes := [] }

/-- A small generic grade-A product (fair price = base = 1000). -/
def smallProduct : Product :=
  { name := "y", category := "c", quantity := 1, quality_grade := "A",
    origin := "x", base_market_price := 1000, attributes := [] }

/-- An Export-grade product with no origin premium. -/
def exportProduct : Product :=
  { name := "y", category := "c", quantity := 1, quality_grade := "Export",
    origin := "x", base_market_price := 1000, attributes := [] }

/-- A round-1 context for `alphonsoProduct` with budget 50000, below the
floor 72000. -/
def c7Ctx : NegotiationContext :=
  { product := alphonsoProduct, your_budget := 50000, current_round := 1,
    seller_offers := [270000], your_offers := [], messages := [] }

/-- A round-1 context for `alphonsoProduct` with a large budget. -/
def c7BigCtx : NegotiationContext :=
  { product := alphonsoProduct, your_budget := 216000, current_round := 1,
    seller_offers := [270000], your_offers := [], messages := [] }

/-- The context reached in round 2 of
`run_negotiation_test smallProduct 500 2000` (messages omitted; the buyer
policy never reads them). -/
def c1Ctx : NegotiationContext :=
  { product := smallProduct, your_budget := 500, current_round := 2,
    seller_offers := [1500, 2000], your_offers := [500], messages := [] }

/-- A round-1 context with budget 100 (below the 40%-of-base floor 400). -/
def c2Ctx : NegotiationContext :=
  { product := smallProduct, your_budget := 100, current_round := 1,
    seller_offers := [1500], your_offers := [], messages := [] }

/-- A round-1 context whose prior buyer offer (1000000) dwarfs the fair
price, so the outrageous-seller clamp pulls the counter far below it. -/
def c3Ctx : NegotiationContext :=
  { product := smallProduct, your_budget := 1000000, current_round := 1,
    seller_offers := [1500], your_offers := [1000000], messages := [] }

/-- A round-3 context used to witness the amended monotonic-step claim. -/
def c3WitnessCtx : NegotiationContext :=
  { product := smallProduct, your_budget := 500, current_round := 3,
    seller_offers := [1500, 1400], your_offers := [500], messages := [] }

/-! ### Helper lemmas about truncation and the fair price -/

theorem tdivE {x : Int} (hx : 0 ≤ x) (k : Int) (hk : 0 ≤ k) : x.tdiv k = x / k :=
  Int.tdiv_eq_ediv hx hk

theorem tdiv110_ge {x : Int} (hx : 0 ≤ x) : x ≤ (x * 110).tdiv 100 := by
  rw [Int.tdiv_eq_ediv (by omega) (by omega)]; omega

theorem tdiv108_ge {x : Int} (hx : 0 ≤ x) : x ≤ (x * 108).tdiv 100 := by
  rw [Int.tdiv_eq_ediv (by omega) (by omega)]; omega

theorem tdiv90_le {x : Int} (hx : 0 ≤ x) : (x * 90).tdiv 100 ≤ x := by
  rw [Int.tdiv_eq_ediv (by omega) (by omega)]; omega

theorem tdiv90_108_le {x : Int} (hx : 0 ≤ x) :
    ((x * 90).tdiv 100 * 108).tdiv 100 ≤ x := by
  rw [Int.tdiv_eq_ediv (show (0 : Int) ≤ x * 90 by omega) (by omega)]
  rw [Int.tdiv_eq_ediv (mul_nonneg (Int.ediv_nonneg (by omega) (by omega)) (by omega))
      (by omega)]
  omega

/-- Rounding to nearest (ties to even) overshoots `a / 2^s` by less than
half a unit: `roundHalfEven a s × 2^s ≤ a + 2^s / 2`. -/
theorem roundHalfEven_le (a s : Nat) : 2 * (roundHalfEven a s * 2 ^ s) ≤ 2 * a + 2 ^ s := by
  have hd : a / 2 ^ s * 2 ^ s + a % 2 ^ s = a := Nat.div_add_mod' a (2 ^ s)
  unfold roundHalfEven
  by_cases h1 : 2 * (a % 2 ^ s) < 2 ^ s
  · simp only [if_pos h1]
    omega
  · simp only [if_neg h1]
    by_cases h2 : 2 ^ s < 2 * (a % 2 ^ s)
    · simp only [if_pos h2, add_mul, one_mul]
      omega
    · simp only [if_neg h2]
      by_cases h3 : a / 2 ^ s % 2 = 0
      · simp only [if_pos h3]; omega
      · simp only [if_neg h3, add_mul, one_mul]; omega

theorem div_pow_shift (m s t : Nat) (h : s ≤ t) :
    m / 2 ^ (t - s) = m * 2 ^ s / 2 ^ t := by
  rw [show (2:Nat) ^ t = 2 ^ (t - s) * 2 ^ s by rw [← pow_add]; congr 1; omega]
  rw [Nat.mul_div_mul_right]
  exact Nat.pos_pow_of_pos s (by norm_num)

theorem natLog2_lt_iff (a k : Nat) (ha : a ≠ 0) : natLog2 a < k ↔ a < 2 ^ k := by
  rw [natLog2_eq]
  exact Nat.log2_lt ha

/-- The double 0.58 is below the rational 58/100, and for `x ≤ 10^13` the
rounding of the product `x × 0.58` cannot make up the difference:
`int(x * 0.58) ≤ truncate(x × 58 / 100)` holds at the integer level. -/
theorem roundPow2_53_le (x : Nat) (hx : x ≤ 10000000000000) :
    100 * ((roundPow2 (x * 5224175567749775) 53).1 /
      2 ^ (roundPow2 (x * 5224175567749775) 53).2) ≤ 58 * x := by
  by_cases h0 : x * 5224175567749775 = 0
  · rw [roundPow2, if_pos h0]
    simp
  · rw [roundPow2, if_neg h0]
    simp only
    by_cases hLa : 52 ≤ natLog2 (x * 5224175567749775)
    · rw [if_pos hLa]
      have ha97 : x * 5224175567749775 < 2 ^ 97 := by
        calc x * 5224175567749775 ≤ 10000000000000 * 5224175567749775 :=
              Nat.mul_le_mul_right _ hx
          _ < 2 ^ 97 := by norm_num
      have hs97 : natLog2 (x * 5224175567749775) < 97 :=
        (natLog2_lt_iff _ 97 h0).mpr ha97
      rw [if_neg (show ¬(53 ≤ natLog2 (x * 5224175567749775) - 52) by omega)]
      simp only
      set s := natLog2 (x * 5224175567749775) - 52 with hs
      have hs44 : s ≤ 44 := by omega
      have hs53 : s ≤ 53 := by omega
      rw [div_pow_shift _ s 53 hs53]
      have hm := roundHalfEven_le (x * 5224175567749775) s
      have hp : (2:Nat) ^ s ≤ 2 ^ 44 := Nat.pow_le_pow_right (by norm_num) hs44
      have h253 : (2:Nat) ^ 53 = 9007199254740992 := by norm_num
      have h244 : (2:Nat) ^ 44 = 17592186044416 := by norm_num
      rw [h253]
      rw [h244] at hp
      generalize hB : roundHalfEven (x * 5224175567749775) s * 2 ^ s = B at hm
      generalize hP : (2:Nat) ^ s = P at hm hp
      omega
    · rw [if_neg hLa]
      simp only
      have ha52 : x * 5224175567749775 < 2 ^ 52 :=
        (natLog2_lt_iff _ 52 h0).mp (by omega)
      have : x * 5224175567749775 / 2 ^ 53 = 0 :=
        Nat.div_eq_of_lt (lt_trans ha52 (by norm_num))
      rw [this]
      omega

/-- The double 1.15 is below the rational 115/100, and for `x ≤ 10^13` the
rounding of the product `x × 1.15` cannot make up the difference:
`int(x * 1.15) ≤ truncate(x × 115 / 100)` holds at the integer level. -/
theorem roundPow2_51_le (x : Nat) (hx : x ≤ 10000000000000) :
    100 * ((roundPow2 (x * 2589569785738035) 51).1 /
      2 ^ (roundPow2 (x * 2589569785738035) 51).2) ≤ 115 * x := by
  by_cases h0 : x * 2589569785738035 = 0
  · rw [roundPow2, if_pos h0]
    simp
  · rw [roundPow2, if_neg h0]
    simp only
    by_cases hLa : 52 ≤ natLog2 (x * 2589569785738035)
    · rw [if_pos hLa]
      have ha96 : x * 2589569785738035 < 2 ^ 96 := by
        calc x * 2589569785738035 ≤ 10000000000000 * 2589569785738035 :=
              Nat.mul_le_mul_right _ hx
          _ < 2 ^ 96 := by norm_num
      have hs96 : natLog2 (x * 2589569785738035) < 96 :=
        (natLog2_lt_iff _ 96 h0).mpr ha96
      rw [if_neg (show ¬(51 ≤ natLog2 (x * 2589569785738035) - 52) by omega)]
      simp only
      set s := natLog2 (x * 2589569785738035) - 52 with hs
      have hs43 : s ≤ 43 := by omega
      have hs51 : s ≤ 51 := by omega
      rw [div_pow_shift _ s 51 hs51]
      have hm := roundHalfEven_le (x * 2589569785738035) s
      have hp : (2:Nat) ^ s ≤ 2 ^ 43 := Nat.pow_le_pow_right (by norm_num) hs43
      have h251 : (2:Nat) ^ 51 = 2251799813685248 := by norm_num
      have h243 : (2:Nat) ^ 43 = 8796093022208 := by norm_num
      rw [h251]
      rw [h243] at hp
      generalize hB : roundHalfEven (x * 2589569785738035) s * 2 ^ s = B at hm
      generalize hP : (2:Nat) ^ s = P at hm hp
      omega
    · rw [if_neg hLa]
      simp only
      have ha52 : x * 2589569785738035 < 2 ^ 52 :=
        (natLog2_lt_iff _ 52 h0).mp (by omega)
      have : x * 2589569785738035 / 2 ^ 51 = 0 ∨
          x * 2589569785738035 / 2 ^ 51 = 1 := by
        have := Nat.div_lt_iff_lt_mul (show 0 < 2 ^ 51 by norm_num)
          |>.mpr (show x * 2589569785738035 < 2 * 2 ^ 51 from
            lt_of_lt_of_le ha52 (by norm_num))
        omega
      rcases this with h | h
      · rw [h]; omega
      · rw [h]
        have hx1 : 1 ≤ x := by omega
        omega

theorem pyIntMulPow_nonneg_eq (x : Int) (C t : Nat) (h0 : 0 ≤ x) :
    pyIntMulPow x C t =
      ((roundPow2 (x.natAbs * C) t).1 / 2 ^ (roundPow2 (x.natAbs * C) t).2 : Nat) := by
  simp only [pyIntMulPow]
  rw [if_neg (by omega : ¬ x < 0)]

/-- For `0 ≤ x ≤ 10^13` the IEEE product `int(x * 0.58)` never exceeds the
exact truncation `truncate(x × 58 / 100)`. -/
theorem pyInt058_le (x : Int) (h0 : 0 ≤ x) (h1 : x ≤ 10000000000000) :
    pyInt058 x ≤ (x * 58).tdiv 100 := by
  have hx : x.natAbs ≤ 10000000000000 := by omega
  have key := roundPow2_53_le x.natAbs hx
  rw [pyInt058, pyIntMulPow_nonneg_eq x _ _ h0]
  rw [Int.tdiv_eq_ediv (by omega) (by omega)]
  generalize hv : (roundPow2 (x.natAbs * 5224175567749775) 53).1 /
      2 ^ (roundPow2 (x.natAbs * 5224175567749775) 53).2 = v at key ⊢
  omega

/-- For `0 ≤ x ≤ 10^13` the IEEE product `int(x * 1.15)` never exceeds the
exact truncation `truncate(x × 115 / 100)`. -/
theorem pyInt115_le (x : Int) (h0 : 0 ≤ x) (h1 : x ≤ 10000000000000) :
    pyInt115 x ≤ (x * 115).tdiv 100 := by
  have hx : x.natAbs ≤ 10000000000000 := by omega
  have key := roundPow2_51_le x.natAbs hx
  rw [pyInt115, pyIntMulPow_nonneg_eq x _ _ h0]
  rw [Int.tdiv_eq_ediv (by omega) (by omega)]
  generalize hv : (roundPow2 (x.natAbs * 2589569785738035) 51).1 /
      2 ^ (roundPow2 (x.natAbs * 2589569785738035) 51).2 = v at key ⊢
  omega

theorem pyInt115_nonneg (x : Int) (h0 : 0 ≤ x) : 0 ≤ pyInt115 x := by
  rw [pyInt115, pyIntMulPow_nonneg_eq x _ _ h0]
  exact Int.natCast_nonneg _

theorem fair_nonneg (p : Product) (hb : 0 ≤ p.base_market_price) :
    0 ≤ YourBuyerAgent.calculate_fair_price p := by
  simp only [YourBuyerAgent.calculate_fair_price]
  have hin : 0 ≤ (if hasSub "export".data (pyStripLower p.quality_grade) = true then
      (p.base_market_price * 110).tdiv 100
    else if pyStripLower p.quality_grade = "b".data then
      (p.base_market_price * 90).tdiv 100
    else p.base_market_price) := by
    by_cases h1 : hasSub "export".data (pyStripLower p.quality_grade) = true
    · rw [if_pos h1]; exact Int.tdiv_nonneg (by omega) (by omega)
    · rw [if_neg h1]
      by_cases h2 : pyStripLower p.quality_grade = "b".data
      · rw [if_pos h2]; exact Int.tdiv_nonneg (by omega) (by omega)
      · rw [if_neg h2]; exact hb
  by_cases h3 : hasSub "ratnagiri".data (pyStripLower p.origin) = true ∧
      hasSub "alphonso".data (pyStripLower p.name) = true
  · rw [if_pos h3]; exact Int.tdiv_nonneg (mul_nonneg hin (by omega)) (by omega)
  · rw [if_neg h3]; exact hin

theorem fair_ge_base (p : Product) (hb : 0 ≤ p.base_market_price)
    (hg : pyStripLower p.quality_grade ≠ "b".data) :
    p.base_market_price ≤ YourBuyerAgent.calculate_fair_price p := by
  simp only [YourBuyerAgent.calculate_fair_price]
  have hin : p.base_market_price ≤ (if hasSub "export".data (pyStripLower p.quality_grade) = true then
      (p.base_market_price * 110).tdiv 100
    else if pyStripLower p.quality_grade = "b".data then
      (p.base_market_price * 90).tdiv 100
    else p.base_market_price) := by
    by_cases h1 : hasSub "export".data (pyStripLower p.quality_grade) = true
    · rw [if_pos h1]; exact tdiv110_ge hb
    · rw [if_neg h1, if_neg hg]
  by_cases h3 : hasSub "ratnagiri".data (pyStripLower p.origin) = true ∧
      hasSub "alphonso".data (pyStripLower p.name) = true
  · rw [if_pos h3]; exact le_trans hin (tdiv108_ge (le_trans hb hin))
  · rw [if_neg h3]; exact hin

theorem fair_upper (p : Product) (hb : 0 ≤ p.base_market_price) :
    1000 * YourBuyerAgent.calculate_fair_price p ≤ 1188 * p.base_market_price := by
  simp only [YourBuyerAgent.calculate_fair_price]
  have key : ∀ y : Int, 0 ≤ y → 1000 * y ≤ 1100 * p.base_market_price →
      1000 * ((y * 108).tdiv 100) ≤ 1188 * p.base_market_price := by
    intro y hy hub
    rw [tdivE (by omega) 100 (by omega)]
    omega
  by_cases h1 : hasSub "export".data (pyStripLower p.quality_grade) = true
  · rw [if_pos h1]
    have hy : 0 ≤ (p.base_market_price * 110).tdiv 100 :=
      Int.tdiv_nonneg (by omega) (by omega)
    have hub : 1000 * ((p.base_market_price * 110).tdiv 100) ≤
        1100 * p.base_market_price := by
      rw [tdivE (show (0 : Int) ≤ p.base_market_price * 110 by omega) 100 (by omega)]
      omega
    by_cases h3 : hasSub "ratnagiri".data (pyStripLower p.origin) = true ∧
        hasSub "alphonso".data (pyStripLower p.name) = true
    · rw [if_pos h3]; exact key _ hy hub
    · rw [if_neg h3]; omega
  · rw [if_neg h1]
    by_cases h2 : pyStripLower p.quality_grade = "b".data
    · rw [if_pos h2]
      have hy : 0 ≤ (p.base_market_price * 90).tdiv 100 :=
        Int.tdiv_nonneg (by omega) (by omega)
      have hub : 1000 * ((p.base_market_price * 90).tdiv 100) ≤
          1100 * p.base_market_price := by
        rw [tdivE (show (0 : Int) ≤ p.base_market_price * 90 by omega) 100 (by omega)]
        omega
      by_cases h3 : hasSub "ratnagiri".data (pyStripLower p.origin) = true ∧
          hasSub "alphonso".data (pyStripLower p.name) = true
      · rw [if_pos h3]; exact key _ hy hub
      · rw [if_neg h3]; omega
    · rw [if_neg h2]
      by_cases h3 : hasSub "ratnagiri".data (pyStripLower p.origin) = true ∧
          hasSub "alphonso".data (pyStripLower p.name) = true
      · rw [if_pos h3]; exact key _ hb (by omega)
      · rw [if_neg h3]; omega

/-- The opening offer, written without lets. -/
theorem opening_eq (context : NegotiationContext) :
    (YourBuyerAgent.generate_opening_offer context).1 =
      max (min (pyInt058 (YourBuyerAgent.calculate_fair_price context.product))
            context.your_budget)
        ((context.product.base_market_price * 40).tdiv 100) := rfl

/-- The buyer accepts any price at most `min(budget, truncate(fair × 0.88))`. -/
theorem respond_accepts (context : NegotiationContext) (sp : Int) (msg : String)
    (h : sp ≤ min context.your_budget
        ((YourBuyerAgent.calculate_fair_price context.product * 88).tdiv 100)) :
    YourBuyerAgent.respond_to_seller_offer context sp msg =
      (DealStatus.accepted, sp,
       "Alright. ₹" ++ toString sp ++ " works. " ++ YourBuyerAgent.catchphrases.getD 2 "") := by
  simp only [YourBuyerAgent.respond_to_seller_offer]
  rw [if_pos h]

/-- The mock seller accepts any offer with `offer ≥ min_price × 1.1`
(IEEE double product). -/
theorem seller_accepts_eq (m o r : Int) (h : pyGe110 o m) :
    MockSellerAgent.respond_to_buyer m o r =
      (o, "You have a deal at ₹" ++ toString o ++ "!", true) := by
  simp only [MockSellerAgent.respond_to_buyer]
  rw [if_pos h]

/-- Before round 8 the mock seller counters a too-low offer with
`max(min_price, int(offer * 1.15))`. -/
theorem seller_counter_eq (m o r : Int) (h : ¬ pyGe110 o m) (hr : ¬(r ≥ 8)) :
    MockSellerAgent.respond_to_buyer m o r =
      (max m (pyInt115 o),
       "I can come down to ₹" ++ toString (max m (pyInt115 o)) ++ ".", false) := by
  simp only [MockSellerAgent.respond_to_buyer]
  rw [if_neg h, if_neg hr]

/-- One unfolding of the loop at round 0. -/
theorem loop_step0 (smin : Int) (fuel : Nat) (ctx : NegotiationContext)
    (sp : Int) (sm : String) :
    negotiationLoop smin (fuel + 1) 0 ctx sp sm =
      (if (MockSellerAgent.respond_to_buyer smin
            (YourBuyerAgent.generate_opening_offer { ctx with current_round := 1 }).1 0).2.2 = true then
        (true,
         some (YourBuyerAgent.generate_opening_offer { ctx with current_round := 1 }).1,
         { ctx with
             current_round := 1
             your_offers := ctx.your_offers ++
               [(YourBuyerAgent.generate_opening_offer { ctx with current_round := 1 }).1]
             messages := ctx.messages ++
               [("buyer", (YourBuyerAgent.generate_opening_offer { ctx with current_round := 1 }).2)] ++
               [("seller", (MockSellerAgent.respond_to_buyer smin
                   (YourBuyerAgent.generate_opening_offer { ctx with current_round := 1 }).1 0).2.1)] })
      else
        negotiationLoop smin fuel 1
          { ctx with
              current_round := 1
              seller_offers := ctx.seller_offers ++
                [(MockSellerAgent.respond_to_buyer smin
                   (YourBuyerAgent.generate_opening_offer { ctx with current_round := 1 }).1 0).1]
              your_offers := ctx.your_offers ++
                [(YourBuyerAgent.generate_opening_offer { ctx with current_round := 1 }).1]
              messages := ctx.messages ++
                [("buyer", (YourBuyerAgent.generate_opening_offer { ctx with current_round := 1 }).2)] ++
                [("seller", (MockSellerAgent.respond_to_buyer smin
                   (YourBuyerAgent.generate_opening_offer { ctx with current_round := 1 }).1 0).2.1)] }
          (MockSellerAgent.respond_to_buyer smin
            (YourBuyerAgent.generate_opening_offer { ctx with current_round := 1 }).1 0).1
          (MockSellerAgent.respond_to_buyer smin
            (YourBuyerAgent.generate_opening_offer { ctx with current_round := 1 }).1 0).2.1) := rfl

/-- If the price offered to the buyer in round 1 is within the acceptance
threshold, the loop ends there with a deal at that price. -/
theorem loop_round1_accepts (product : Product) (budget smin : Int) (fuel : Nat)
    (c : NegotiationContext) (s2 : Int) (m2 : String)
    (hprod : c.product = product) (hbudc : c.your_budget = budget)
    (hacc : s2 ≤ min budget
      ((YourBuyerAgent.calculate_fair_price product * 88).tdiv 100)) :
    (negotiationLoop smin (fuel + 1) 1 c s2 m2).1 = true ∧
    (negotiationLoop smin (fuel + 1) 1 c s2 m2).2.1 = some s2 := by
  have hacc' : s2 ≤ min ({ c with current_round := 2 } : NegotiationContext).your_budget
      ((YourBuyerAgent.calculate_fair_price
        ({ c with current_round := 2 } : NegotiationContext).product * 88).tdiv 100) := by
    dsimp only
    rw [hprod, hbudc]
    exact hacc
  simp only [negotiationLoop]
  norm_num
  rw [respond_accepts { c with current_round := 2 } s2 m2 hacc']
  exact ⟨rfl, rfl⟩

theorem c5_o1_le_budget (b q budget : Int) (hb : 0 ≤ b) (hbud : b ≤ budget) :
    max (min q budget) ((b*40).tdiv 100) ≤ budget := by
  have h40 : (b*40).tdiv 100 ≤ b := by
    rw [tdivE (by omega) 100 (by omega)]; omega
  exact max_le (min_le_right _ _) (le_trans h40 hbud)

theorem c5_s2_le_exact (b f budget : Int) (hb : 0 ≤ b) (hf1 : b ≤ f)
    (hf2 : 1000*f ≤ 1188*b) (hbud : b ≤ budget) :
    max ((b*82).tdiv 100)
        ((max (min ((f*58).tdiv 100) budget) ((b*40).tdiv 100) * 115).tdiv 100) ≤
      min budget ((f*88).tdiv 100) := by
  have hf0 : 0 ≤ f := le_trans hb hf1
  have h40n : (0:Int) ≤ (b*40).tdiv 100 := Int.tdiv_nonneg (by omega) (by omega)
  have ho1n : (0:Int) ≤ max (min ((f*58).tdiv 100) budget) ((b*40).tdiv 100) :=
    le_trans h40n (le_max_right _ _)
  rw [tdivE (show (0:Int) ≤ (max (min ((f*58).tdiv 100) budget) ((b*40).tdiv 100)) * 115
      from mul_nonneg ho1n (by omega)) 100 (by omega)]
  rw [tdivE (show (0:Int) ≤ f*58 by omega) 100 (by omega)]
  rw [tdivE (show (0:Int) ≤ b*40 by omega) 100 (by omega)]
  rw [tdivE (show (0:Int) ≤ b*82 by omega) 100 (by omega)]
  rw [tdivE (show (0:Int) ≤ f*88 by omega) 100 (by omega)]
  omega

/-- The seller counter to the (IEEE) opening offer stays below the buyer's
acceptance threshold `min(budget, truncate(fair × 0.88))`: the float
products are bounded by the exact truncations and the exact bound
`c5_s2_le_exact` applies. -/
theorem c5_s2_le (b f budget : Int) (hb : 0 ≤ b) (hf1 : b ≤ f)
    (hf2 : 1000*f ≤ 1188*b) (hbud : b ≤ budget) (hbB : b ≤ 1000000000000) :
    max ((b*82).tdiv 100)
        (pyInt115 (max (min (pyInt058 f) budget) ((b*40).tdiv 100))) ≤
      min budget ((f*88).tdiv 100) := by
  have hf0 : 0 ≤ f := le_trans hb hf1
  have hf13 : f ≤ 10000000000000 := by omega
  have h58le : pyInt058 f ≤ (f * 58).tdiv 100 := pyInt058_le f hf0 hf13
  have hf58 : (f * 58).tdiv 100 ≤ f := by
    rw [tdivE (by omega) 100 (by omega)]; omega
  have hb40n : (0:Int) ≤ (b*40).tdiv 100 := Int.tdiv_nonneg (by omega) (by omega)
  have hb40 : (b*40).tdiv 100 ≤ b := by
    rw [tdivE (by omega) 100 (by omega)]; omega
  have ho1l : (0:Int) ≤ max (min (pyInt058 f) budget) ((b*40).tdiv 100) :=
    le_trans hb40n (le_max_right _ _)
  have ho1u : max (min (pyInt058 f) budget) ((b*40).tdiv 100) ≤
      max (min ((f*58).tdiv 100) budget) ((b*40).tdiv 100) :=
    max_le_max (min_le_min h58le le_rfl) le_rfl
  have ho1f : max (min (pyInt058 f) budget) ((b*40).tdiv 100) ≤ f :=
    max_le (le_trans (min_le_left _ _) (le_trans h58le hf58)) (le_trans hb40 hf1)
  have ht : pyInt115 (max (min (pyInt058 f) budget) ((b*40).tdiv 100)) ≤
      ((max (min (pyInt058 f) budget) ((b*40).tdiv 100)) * 115).tdiv 100 :=
    pyInt115_le _ ho1l (by omega)
  have hmul : (max (min (pyInt058 f) budget) ((b*40).tdiv 100)) * 115 ≤
      (max (min ((f*58).tdiv 100) budget) ((b*40).tdiv 100)) * 115 :=
    mul_le_mul_of_nonneg_right ho1u (by omega)
  have hmono : ((max (min (pyInt058 f) budget) ((b*40).tdiv 100)) * 115).tdiv 100 ≤
      ((max (min ((f*58).tdiv 100) budget) ((b*40).tdiv 100)) * 115).tdiv 100 := by
    rw [tdivE (mul_nonneg ho1l (by omega)) 100 (by omega),
        tdivE (mul_nonneg (le_trans ho1l ho1u) (by omega)) 100 (by omega)]
    exact Int.ediv_le_ediv (by omega) hmul
  have hexact := c5_s2_le_exact b f budget hb hf1 hf2 hbud
  exact max_le (le_trans (le_max_left _ _) hexact)
    (le_trans ht (le_trans hmono (le_trans (le_max_right _ _) hexact)))

/-- For a non-grade-"b" product with nonnegative base price at most 10^12,
a budget at least the base price and seller minimum `truncate(0.82 × base)`,
the loop reaches a deal within two rounds, at a price within budget. -/
theorem loop_converges (product : Product) (budget smin : Int) (fuel : Nat)
    (ctx : NegotiationContext) (sp : Int) (sm : String)
    (hprod : ctx.product = product)
    (hbudc : ctx.your_budget = budget)
    (hb : 0 ≤ product.base_market_price)
    (hg : pyStripLower product.quality_grade ≠ "b".data)
    (hbud : product.base_market_price ≤ budget)
    (hbB : product.base_market_price ≤ 1000000000000)
    (hsmin : smin = (product.base_market_price * 82).tdiv 100) :
    ∃ fp, (negotiationLoop smin (fuel + 1 + 1) 0 ctx sp sm).1 = true ∧
      (negotiationLoop smin (fuel + 1 + 1) 0 ctx sp sm).2.1 = some fp ∧
      fp ≤ budget := by
  have hf0 : 0 ≤ YourBuyerAgent.calculate_fair_price product := fair_nonneg product hb
  have hf1 := fair_ge_base product hb hg
  have hf2 := fair_upper product hb
  have ho1 : (YourBuyerAgent.generate_opening_offer { ctx with current_round := 1 }).1 =
      max (min (pyInt058 (YourBuyerAgent.calculate_fair_price product)) budget)
        ((product.base_market_price * 40).tdiv 100) := by
    rw [opening_eq]; dsimp only; rw [hprod, hbudc]
  rw [loop_step0, ho1]
  by_cases hacc1 : pyGe110
      (max (min (pyInt058 (YourBuyerAgent.calculate_fair_price product)) budget)
        ((product.base_market_price * 40).tdiv 100)) smin
  · rw [seller_accepts_eq smin _ 0 hacc1]
    dsimp only
    rw [if_pos rfl]
    exact ⟨_, rfl, rfl, c5_o1_le_budget _ _ _ hb hbud⟩
  · rw [seller_counter_eq smin _ 0 hacc1 (by norm_num)]
    dsimp only
    rw [if_neg (show ¬((false : Bool) = true) by decide)]
    refine ⟨_, (loop_round1_accepts product budget smin fuel _ _ _ ?_ ?_ ?_).1,
      (loop_round1_accepts product budget smin fuel _ _ _ ?_ ?_ ?_).2, ?_⟩
    · exact hprod
    · exact hbudc
    · rw [hsmin]
      exact c5_s2_le _ _ _ hb hf1 hf2 hbud hbB
    · exact hprod
    · exact hbudc
    · rw [hsmin]
      exact c5_s2_le _ _ _ hb hf1 hf2 hbud hbB
    · refine le_trans ?_ (min_le_left budget
        ((YourBuyerAgent.calculate_fair_price product * 88).tdiv 100))
      rw [hsmin]
      exact c5_s2_le _ _ _ hb hf1 hf2 hbud hbB

/-- The loop call made by `run_negotiation_test`. -/
def runLoop (product : Product) (budget smin : Int) :
    Bool × Option Int × NegotiationContext :=
  negotiationLoop smin 10 0 (initContext product budget)
    (MockSellerAgent.get_opening_price product).1
    (MockSellerAgent.get_opening_price product).2

theorem run_deal_made_eq (product : Product) (budget smin : Int) :
    (run_negotiation_test product budget smin).deal_made =
      (runLoop product budget smin).1 := rfl

theorem run_final_price_eq (product : Product) (budget smin : Int) :
    (run_negotiation_test product budget smin).final_price =
      (runLoop product budget smin).2.1 := rfl

theorem run_rounds_eq (product : Product) (budget smin : Int) :
    (run_negotiation_test product budget smin).rounds =
      (runLoop product budget smin).2.2.current_round := rfl

theorem run_savings_eq (product : Product) (budget smin : Int) :
    (run_negotiation_test product budget smin).savings =
      (if (runLoop product budget smin).1 = true then
        budget - ((runLoop product budget smin).2.1).getD 0 else 0) := rfl

theorem run_savings_pct_eq (product : Product) (budget smin : Int) :
    (run_negotiation_test product budget smin).savings_pct =
      (if (runLoop product budget smin).1 = true then
        ((budget - ((runLoop product budget smin).2.1).getD 0 : Int) : Rat) /
          (budget : Rat) * 100 else 0) := rfl

theorem run_below_market_pct_eq (product : Product) (budget smin : Int) :
    (run_negotiation_test product budget smin).below_market_pct =
      (if (runLoop product budget smin).1 = true then
        ((product.base_market_price - ((runLoop product budget smin).2.1).getD 0 : Int) : Rat) /
          ((product.base_market_price : Int) : Rat) * 100 else 0) := rfl

/-- `loop_shape` instantiated at the run's loop call. -/
theorem runLoop_shape (product : Product) (budget smin : Int) :
    ((runLoop product budget smin).1 = true ∧
      ∃ fp, (runLoop product budget smin).2.1 = some fp) ∨
    ((runLoop product budget smin).1 = false ∧
      (runLoop product budget smin).2.1 = none) :=
  loop_shape smin 10 0 (initContext product budget)
    (MockSellerAgent.get_opening_price product).1
    (MockSellerAgent.get_opening_price product).2

/-- `loop_rounds` instantiated at the run's loop call. -/
theorem runLoop_rounds (product : Product) (budget smin : Int) :
    (runLoop product budget smin).2.2.current_round ≤ 10 := by
  have h := loop_rounds smin 10 0 (initContext product budget)
    (MockSellerAgent.get_opening_price product).1
    (MockSellerAgent.get_opening_price product).2 (by simp [initContext])
  simpa using h

/-! ### Claim C1 -/

/-- C1: the spec claims every price returned by `respond_to_seller_offer`
(ACCEPTED or ONGOING) is at most `context.your_budget`.  The code violates
this: in the context reached in round 2 of
`run_negotiation_test smallProduct 500 2000`, the monotonic-step line raises
the counter past the budget clamp and the buyer returns an ONGOING counter
of 502 against a budget of 500. -/
theorem C1_budget_invariant_violated :
    (YourBuyerAgent.respond_to_seller_offer c1Ctx 2000 "m").1 = DealStatus.ongoing ∧
    (YourBuyerAgent.respond_to_seller_offer c1Ctx 2000 "m").2.1 = 502 ∧
    c1Ctx.your_budget = 500 ∧ ¬((502 : Int) ≤ 500) ∧
    ("buyer", "That’s above what I can justify. ₹502 is my ceiling given the market. I can’t justify that price.")
      ∈ (run_negotiation_test smallProduct 500 2000).conversation := by
  refine ⟨rfl, rfl, rfl, by decide, by decide⟩

/-! ### Claim C2 -/

/-- C2 counterexample: with budget 100 and base price 1000 the opening
offer is the floor 400, which exceeds the budget. -/
theorem C2_counterexample :
    (YourBuyerAgent.generate_opening_offer c2Ctx).1 = 400 ∧
    ¬((YourBuyerAgent.generate_opening_offer c2Ctx).1 ≤ c2Ctx.your_budget) := by
  refine ⟨rfl, by decide⟩

/-- C2 (amended): the opening offer is at most the budget whenever the
budget is at least the floor `truncate(0.40 × base_market_price)`. -/
theorem C2_opening_offer_le_budget (context : NegotiationContext)
    (h : (context.product.base_market_price * 40).tdiv 100 ≤ context.your_budget) :
    (YourBuyerAgent.generate_opening_offer context).1 ≤ context.your_budget := by
  unfold YourBuyerAgent.generate_opening_offer
  exact max_le (min_le_right _ _) h

/-- Witness for `C2_opening_offer_le_budget` at `c1Ctx`. -/
theorem C2_opening_offer_le_budget_witness :
    (c1Ctx.product.base_market_price * 40).tdiv 100 ≤ c1Ctx.your_budget ∧
    (YourBuyerAgent.generate_opening_offer c1Ctx).1 ≤ c1Ctx.your_budget :=
  ⟨by decide, C2_opening_offer_le_budget c1Ctx (by decide)⟩

/-! ### Claim C3 -/

/-- C3 counterexample: in `c3Ctx` (prior offer 1000000, fair price 1000)
the seller price 2000 triggers the outrageous-seller clamp, so the ONGOING
counter is 700, far below `last_offer + max(1, truncate(fair × 0.002)) =
1000002`. -/
theorem C3_counterexample :
    c3Ctx.your_offers.getLast?.getD
        (pyInt058 (YourBuyerAgent.calculate_fair_price c3Ctx.product)) = 1000000 ∧
    max 1 ((YourBuyerAgent.calculate_fair_price c3Ctx.product * 2).tdiv 1000) = 2 ∧
    (YourBuyerAgent.respond_to_seller_offer c3Ctx 2000 "m").1 = DealStatus.ongoing ∧
    (YourBuyerAgent.respond_to_seller_offer c3Ctx 2000 "m").2.1 = 700 ∧
    ¬((1000000 : Int) + 2 ≤ 700) := by
  refine ⟨rfl, rfl, rfl, rfl, by decide⟩

/-- C3 (amended): whenever the outrageous-seller clamp does not fire (the
seller price is below `truncate(1.5 × base)` or the round is past 2), every
ONGOING counter is at least the buyer's previous offer (or the IEEE double
product `int(fair * 0.58)` when there is none) plus the minimal step
`max(1, truncate(fair × 0.002))`. -/
theorem C3_monotonic_step (context : NegotiationContext) (sp : Int) (msg : String)
    (hcl : ¬((context.product.base_market_price * 15).tdiv 10 ≤ sp ∧
        context.current_round ≤ 2))
    (hst : (YourBuyerAgent.respond_to_seller_offer context sp msg).1 =
        DealStatus.ongoing) :
    context.your_offers.getLast?.getD
        (pyInt058 (YourBuyerAgent.calculate_fair_price context.product))
      + max 1 ((YourBuyerAgent.calculate_fair_price context.product * 2).tdiv 1000)
      ≤ (YourBuyerAgent.respond_to_seller_offer context sp msg).2.1 := by
  by_cases hacc : sp ≤ min context.your_budget
      ((YourBuyerAgent.calculate_fair_price context.product * 88).tdiv 100)
  · simp only [YourBuyerAgent.respond_to_seller_offer] at hst
    rw [if_pos hacc] at hst
    exact absurd hst (by simp)
  · simp only [YourBuyerAgent.respond_to_seller_offer]
    rw [if_neg hacc, if_neg hcl]
    exact le_max_right _ _

/-- Witness for `C3_monotonic_step` at `c3WitnessCtx` with seller price
1400: the counter 502 equals the previous offer 500 plus the step 2. -/
theorem C3_monotonic_step_witness :
    ¬((c3WitnessCtx.product.base_market_price * 15).tdiv 10 ≤ 1400 ∧
        c3WitnessCtx.current_round ≤ 2) ∧
    (YourBuyerAgent.respond_to_seller_offer c3WitnessCtx 1400 "m").1 =
        DealStatus.ongoing ∧
    c3WitnessCtx.your_offers.getLast?.getD
        (pyInt058 (YourBuyerAgent.calculate_fair_price c3WitnessCtx.product))
      + max 1 ((YourBuyerAgent.calculate_fair_price c3WitnessCtx.product * 2).tdiv 1000)
      ≤ (YourBuyerAgent.respond_to_seller_offer c3WitnessCtx 1400 "m").2.1 :=
  ⟨by decide, by decide,
   C3_monotonic_step c3WitnessCtx 1400 "m" (by decide) (by decide)⟩

/-! ### Claim C4 -/

/-- C4: `respond_to_seller_offer` returns ACCEPTED at exactly the seller's
price iff `seller_price ≤ min(budget, truncate(fair × 0.88))`; otherwise it
returns ONGOING, and it never returns REJECTED or TIMEOUT. -/
theorem C4_accept_iff (context : NegotiationContext) (sp : Int) (msg : String) :
    (((YourBuyerAgent.respond_to_seller_offer context sp msg).1 = DealStatus.accepted ∧
        (YourBuyerAgent.respond_to_seller_offer context sp msg).2.1 = sp) ↔
      sp ≤ min context.your_budget
        ((YourBuyerAgent.calculate_fair_price context.product * 88).tdiv 100)) ∧
    ((YourBuyerAgent.respond_to_seller_offer context sp msg).1 = DealStatus.accepted ∨
      (YourBuyerAgent.respond_to_seller_offer context sp msg).1 = DealStatus.ongoing) ∧
    (YourBuyerAgent.respond_to_seller_offer context sp msg).1 ≠ DealStatus.rejected ∧
    (YourBuyerAgent.respond_to_seller_offer context sp msg).1 ≠ DealStatus.timeout := by
  by_cases hacc : sp ≤ min context.your_budget
      ((YourBuyerAgent.calculate_fair_price context.product * 88).tdiv 100)
  · simp only [YourBuyerAgent.respond_to_seller_offer]
    rw [if_pos hacc]
    simp [hacc]
  · simp only [YourBuyerAgent.respond_to_seller_offer]
    rw [if_neg hacc]
    simp [hacc]

/-! ### Claim C7 -/

/-- C7 counterexample: the claimed opening offer 112752 = truncate(194400
× 0.58) is not what the code computes: in IEEE double arithmetic
`int(194400 * 0.58)` is 112751, so at the ample budget of `c7BigCtx` the
opening offer is 112751; and for `c7Ctx` (budget 50000, below the floor
72000) the opening offer is the floor 72000, not the budget itself. -/
theorem C7_counterexample :
    (YourBuyerAgent.generate_opening_offer c7BigCtx).1 = 112751 ∧
    ¬((YourBuyerAgent.generate_opening_offer c7BigCtx).1 = 112752) ∧
    c7Ctx.your_budget = 50000 ∧ ((50000 : Int) < 112751) ∧
    (YourBuyerAgent.generate_opening_offer c7Ctx).1 = 72000 ∧
    ¬((YourBuyerAgent.generate_opening_offer c7Ctx).1 = c7Ctx.your_budget) := by
  refine ⟨by decide, by decide, rfl, by decide, by decide, by decide⟩

/-- C7 (amended): for a product with base price 180000, grade "A", origin
containing "ratnagiri" and name containing "alphonso" (after strip/lower),
the fair price is 194400; the opening offer is `int(194400 * 0.58) =
112751` (IEEE double arithmetic, not the exact truncation 112752) for
budgets ≥ 112751, the budget itself for budgets in [72000, 112751), and
the floor 72000 for budgets below 72000. -/
theorem C7_alphonso_fair_and_opening (p : Product)
    (hbase : p.base_market_price = 180000)
    (hg : p.quality_grade = "A")
    (ho : hasSub "ratnagiri".data (pyStripLower p.origin) = true)
    (hn : hasSub "alphonso".data (pyStripLower p.name) = true) :
    YourBuyerAgent.calculate_fair_price p = 194400 ∧
    (∀ context : NegotiationContext, context.product = p →
      112751 ≤ context.your_budget →
      (YourBuyerAgent.generate_opening_offer context).1 = 112751) ∧
    (∀ context : NegotiationContext, context.product = p →
      72000 ≤ context.your_budget → context.your_budget < 112751 →
      (YourBuyerAgent.generate_opening_offer context).1 = context.your_budget) ∧
    (∀ context : NegotiationContext, context.product = p →
      context.your_budget < 72000 →
      (YourBuyerAgent.generate_opening_offer context).1 = 72000) := by
  have h1 : hasSub "export".data (pyStripLower "A") = false := by decide
  have h2 : ¬(pyStripLower "A" = "b".data) := by decide
  have hfair : YourBuyerAgent.calculate_fair_price p = 194400 := by
    simp only [YourBuyerAgent.calculate_fair_price, hbase, hg, h1, h2, ho, hn]
    decide
  have h58 : pyInt058 194400 = 112751 := by decide
  have h40 : ((180000 : Int) * 40).tdiv 100 = 72000 := by decide
  refine ⟨hfair, ?_, ?_, ?_⟩ <;> intro context hctx
  · intro hb
    simp only [YourBuyerAgent.generate_opening_offer, hctx, hfair, hbase, h58, h40]
    omega
  · intro hb hb'
    simp only [YourBuyerAgent.generate_opening_offer, hctx, hfair, hbase, h58, h40]
    omega
  · intro hb
    simp only [YourBuyerAgent.generate_opening_offer, hctx, hfair, hbase, h58, h40]
    omega

/-- Witness for `C7_alphonso_fair_and_opening` at `alphonsoProduct` and
`c7BigCtx` (budget 216000). -/
theorem C7_alphonso_fair_and_opening_witness :
    hasSub "ratnagiri".data (pyStripLower alphonsoProduct.origin) = true ∧
    hasSub "alphonso".data (pyStripLower alphonsoProduct.name) = true ∧
    YourBuyerAgent.calculate_fair_price alphonsoProduct = 194400 ∧
    (YourBuyerAgent.generate_opening_offer c7BigCtx).1 = 112751 :=
  ⟨by decide, by decide,
   (C7_alphonso_fair_and_opening alphonsoProduct rfl rfl (by decide) (by decide)).1,
   (C7_alphonso_fair_and_opening alphonsoProduct rfl rfl (by decide)
      (by decide)).2.1 c7BigCtx rfl (by decide)⟩

/-! ### Claim C8 -/

/-- C8 counterexample: the acceptance test and the 1.15 counter are IEEE
double arithmetic, not exact rationals.  An offer of 110000 against
min_price 100000 satisfies the exact inequality `110000 ≥ 100000 × 1.1`
but the code rejects it (the double `100000 * 1.1` is 110000.00000000001),
and the early-round counter to an offer of 98400 is
`int(98400 * 1.15) = 113159`, not the exact truncation 113160. -/
theorem C8_counterexample :
    (110000 : Int) * 10 ≥ 100000 * 11 ∧
    (MockSellerAgent.respond_to_buyer 100000 110000 1).2.2 = false ∧
    ((98400 : Int) * 115).tdiv 100 = 113160 ∧
    (MockSellerAgent.respond_to_buyer 100000 98400 1).1 = 113159 := by
  refine ⟨by decide, by decide, by decide, by decide⟩

/-- C8 (amended): the mock seller opens at `truncate(1.5 × base)`, accepts
exactly when `buyer_offer ≥ min_price * 1.1` holds with the right side
computed as an IEEE double product (at the buyer's offer), and otherwise
counters with `max(min_price, truncate(1.05 × offer))` from round 8 on and
`max(min_price, int(offer * 1.15))` (IEEE double product) earlier. -/
theorem C8_mock_seller (product : Product) (min_price buyer_offer round_num : Int) :
    (MockSellerAgent.get_opening_price product).1 =
      (product.base_market_price * 15).tdiv 10 ∧
    ((MockSellerAgent.respond_to_buyer min_price buyer_offer round_num).2.2 = true ↔
      pyGe110 buyer_offer min_price) ∧
    (MockSellerAgent.respond_to_buyer min_price buyer_offer round_num).1 =
      (if pyGe110 buyer_offer min_price then buyer_offer
       else if round_num ≥ 8 then max min_price ((buyer_offer * 105).tdiv 100)
       else max min_price (pyInt115 buyer_offer)) := by
  by_cases h1 : pyGe110 buyer_offer min_price
  · refine ⟨rfl, ?_, ?_⟩ <;> simp [MockSellerAgent.respond_to_buyer, h1]
  · by_cases h2 : round_num ≥ 8 <;>
      refine ⟨rfl, ?_, ?_⟩ <;> simp [MockSellerAgent.respond_to_buyer, h1, h2]

/-! ### Claim C9 -/

/-- C9: `calculate_fair_price` is deterministic; for a positive base price
an export grade gives a fair price ≥ base, and grade exactly "b" (after
strip/lower) gives a fair price ≤ base, with or without the origin
premium. -/
theorem C9_fair_price_properties :
    (∀ p q : Product, p = q →
      YourBuyerAgent.calculate_fair_price p = YourBuyerAgent.calculate_fair_price q) ∧
    (∀ p : Product, 0 < p.base_market_price →
      hasSub "export".data (pyStripLower p.quality_grade) = true →
      p.base_market_price ≤ YourBuyerAgent.calculate_fair_price p) ∧
    (∀ p : Product, 0 < p.base_market_price →
      pyStripLower p.quality_grade = "b".data →
      YourBuyerAgent.calculate_fair_price p ≤ p.base_market_price) := by
  refine ⟨fun p q h => congrArg _ h, ?_, ?_⟩
  · intro p hb hexp
    simp only [YourBuyerAgent.calculate_fair_price]
    rw [if_pos hexp]
    split
    · exact le_trans (tdiv110_ge (by omega))
        (tdiv108_ge (Int.tdiv_nonneg (by omega) (by omega)))
    · exact tdiv110_ge (by omega)
  · intro p hb hgB
    simp only [YourBuyerAgent.calculate_fair_price, hgB]
    rw [if_neg (show ¬(hasSub "export".data "b".data = true) by decide)]
    simp only [if_true]
    split
    · exact tdiv90_108_le (by omega)
    · exact tdiv90_le (by omega)

/-! ### Claim C5 -/

/-- C5 counterexample: for the grade-"B" `kesarProduct` (base 150000), a
budget of 150000 ≥ base and seller minimum `truncate(0.82 × 150000) =
123000`, the run ends with no deal: the buyer's acceptance threshold
`truncate(0.88 × truncate(0.9 × 150000)) = 118800` lies below every
seller counter, and the buyer's capped counters never reach the seller's
acceptance bound within 10 rounds. -/
theorem C5_counterexample :
    kesarProduct.base_market_price ≤ (150000 : Int) ∧
    (kesarProduct.base_market_price * 82).tdiv 100 = 123000 ∧
    (run_negotiation_test kesarProduct 150000 123000).deal_made = false := by
  refine ⟨by decide, by decide, by decide⟩

/-- C5 (amended): for every product with base price in `[0, 10^12]` whose
quality grade (after strip/lower) is not exactly "b", and every budget at
least the base price, running the orchestrator with seller minimum
`truncate(0.82 × base)` produces a deal within the 10-round limit at a
final price within budget. -/
theorem C5_deal_when_budget_covers_base (product : Product) (budget : Int)
    (hb : 0 ≤ product.base_market_price)
    (hg : pyStripLower product.quality_grade ≠ "b".data)
    (hbud : product.base_market_price ≤ budget)
    (hbB : product.base_market_price ≤ 1000000000000) :
    (run_negotiation_test product budget
        ((product.base_market_price * 82).tdiv 100)).deal_made = true ∧
    (∃ fp, (run_negotiation_test product budget
        ((product.base_market_price * 82).tdiv 100)).final_price = some fp ∧
      fp ≤ budget) ∧
    (run_negotiation_test product budget
        ((product.base_market_price * 82).tdiv 100)).rounds ≤ 10 := by
  obtain ⟨fp, h1, h2, h3⟩ := loop_converges product budget
    ((product.base_market_price * 82).tdiv 100) 8 (initContext product budget)
    (MockSellerAgent.get_opening_price product).1
    (MockSellerAgent.get_opening_price product).2
    rfl rfl hb hg hbud hbB rfl
  refine ⟨?_, ⟨fp, ?_, h3⟩, ?_⟩
  · rw [run_deal_made_eq]
    exact h1
  · rw [run_final_price_eq]
    exact h2
  · rw [run_rounds_eq]
    exact runLoop_rounds product budget _

/-- Witness for `C5_deal_when_budget_covers_base` at `alphonsoProduct`
with budget 180000. -/
theorem C5_deal_when_budget_covers_base_witness :
    (0 : Int) ≤ alphonsoProduct.base_market_price ∧
    pyStripLower alphonsoProduct.quality_grade ≠ "b".data ∧
    alphonsoProduct.base_market_price ≤ (180000 : Int) ∧
    alphonsoProduct.base_market_price ≤ (1000000000000 : Int) ∧
    (run_negotiation_test alphonsoProduct 180000
        ((alphonsoProduct.base_market_price * 82).tdiv 100)).deal_made = true :=
  ⟨by decide, by decide, by decide, by decide,
   (C5_deal_when_budget_covers_base alphonsoProduct 180000 (by decide) (by decide)
      (by decide) (by decide)).1⟩

/-! ### Claim C6 -/

/-- C6: the orchestrator always terminates with `rounds ≤ 10`, and a run
without an acceptance ends with `deal_made = false`, zero savings and no
final price. -/
theorem C6_round_limit (product : Product) (budget smin : Int) :
    (run_negotiation_test product budget smin).rounds ≤ 10 ∧
    ((run_negotiation_test product budget smin).deal_made = false →
      (run_negotiation_test product budget smin).savings = 0 ∧
      (run_negotiation_test product budget smin).final_price = none) := by
  constructor
  · rw [run_rounds_eq]
    exact runLoop_rounds product budget smin
  · intro hdm
    rw [run_deal_made_eq] at hdm
    rcases runLoop_shape product budget smin with ⟨h1, _⟩ | ⟨h1, h2⟩
    · rw [h1] at hdm
      exact absurd hdm (by decide)
    · constructor
      · rw [run_savings_eq, h1]
        simp
      · rw [run_final_price_eq]
        exact h2

/-- Witness for `C6_round_limit` at the no-deal configuration of
`C5_counterexample`. -/
theorem C6_round_limit_witness :
    (run_negotiation_test kesarProduct 150000 123000).rounds ≤ 10 ∧
    (run_negotiation_test kesarProduct 150000 123000).savings = 0 ∧
    (run_negotiation_test kesarProduct 150000 123000).final_price = none :=
  ⟨(C6_round_limit kesarProduct 150000 123000).1,
   ((C6_round_limit kesarProduct 150000 123000).2 (by decide)).1,
   ((C6_round_limit kesarProduct 150000 123000).2 (by decide)).2⟩

/-! ### Claim C10 -/

/-- C10: for positive budget and base price, the result computation is
total: the percentage divisions are taken only on deal runs, where their
denominators are nonzero, and a no-deal run has `final_price = none` and
zero savings and percentages. -/
theorem C10_result_totality (product : Product) (budget smin : Int)
    (hbud : 0 < budget) (hbase : 0 < product.base_market_price) :
    ((run_negotiation_test product budget smin).deal_made = false →
      (run_negotiation_test product budget smin).final_price = none ∧
      (run_negotiation_test product budget smin).savings = 0 ∧
      (run_negotiation_test product budget smin).savings_pct = 0 ∧
      (run_negotiation_test product budget smin).below_market_pct = 0) ∧
    ((run_negotiation_test product budget smin).deal_made = true →
      ∃ fp, (run_negotiation_test product budget smin).final_price = some fp ∧
        (budget : Rat) ≠ 0 ∧ ((product.base_market_price : Int) : Rat) ≠ 0 ∧
        (run_negotiation_test product budget smin).savings_pct =
          ((budget - fp : Int) : Rat) / (budget : Rat) * 100 ∧
        (run_negotiation_test product budget smin).below_market_pct =
          ((product.base_market_price - fp : Int) : Rat) /
            ((product.base_market_price : Int) : Rat) * 100) := by
  have hbq : (budget : Rat) ≠ 0 := by
    exact_mod_cast hbud.ne'
  have hpq : ((product.base_market_price : Int) : Rat) ≠ 0 := by
    exact_mod_cast hbase.ne'
  rcases runLoop_shape product budget smin with ⟨h1, fp, h2⟩ | ⟨h1, h2⟩
  · constructor
    · intro hdm
      rw [run_deal_made_eq, h1] at hdm
      exact absurd hdm (by decide)
    · intro _
      refine ⟨fp, ?_, hbq, hpq, ?_, ?_⟩
      · rw [run_final_price_eq]
        exact h2
      · rw [run_savings_pct_eq, h1, h2]
        simp
      · rw [run_below_market_pct_eq, h1, h2]
        simp
  · constructor
    · intro _
      refine ⟨?_, ?_, ?_, ?_⟩
      · rw [run_final_price_eq]
        exact h2
      · rw [run_savings_eq, h1]
        simp
      · rw [run_savings_pct_eq, h1]
        simp
      · rw [run_below_market_pct_eq, h1]
        simp
    · intro hdm
      rw [run_deal_made_eq, h1] at hdm
      exact absurd hdm (by decide)

/-- Witness for `C10_result_totality` at a deal run and discharged
positivity hypotheses. -/
theorem C10_result_totality_witness :
    (0 : Int) < 180000 ∧ (0 : Int) < alphonsoProduct.base_market_price ∧
    ((run_negotiation_test alphonsoProduct 180000 147600).deal_made = true →
      ∃ fp, (run_negotiation_test alphonsoProduct 180000 147600).final_price = some fp ∧
        ((180000 : Int) : Rat) ≠ 0 ∧ ((alphonsoProduct.base_market_price : Int) : Rat) ≠ 0 ∧
        (run_negotiation_test alphonsoProduct 180000 147600).savings_pct =
          ((180000 - fp : Int) : Rat) / ((180000 : Int) : Rat) * 100 ∧
        (run_negotiation_test alphonsoProduct 180000 147600).below_market_pct =
          ((alphonsoProduct.base_market_price - fp : Int) : Rat) /
            ((alphonsoProduct.base_market_price : Int) : Rat) * 100) :=
  ⟨by decide, by decide,
   (C10_result_totality alphonsoProduct 180000 147600 (by decide) (by decide)).2⟩

/-- Witness for `C9_fair_price_properties` at `exportProduct` (export
grade, base 1000) and `kesarProduct` (grade "B", base 150000). -/
theorem C9_fair_price_properties_witness :
    (0 < exportProduct.base_market_price ∧
      hasSub "export".data (pyStripLower exportProduct.quality_grade) = true ∧
      exportProduct.base_market_price ≤
        YourBuyerAgent.calculate_fair_price exportProduct) ∧
    (0 < kesarProduct.base_market_price ∧
      pyStripLower kesarProduct.quality_grade = "b".data ∧
      YourBuyerAgent.calculate_fair_price kesarProduct ≤
        kesarProduct.base_market_price) :=
  ⟨⟨by decide, by decide,
    C9_fair_price_properties.2.1 exportProduct (by decide) (by decide)⟩,
   ⟨by decide, by decide,
    C9_fair_price_properties.2.2 kesarProduct (by decide) (by decide)⟩⟩
